import Mathlib

/-!
Verification of the content-normalization core of `src/OSWebScrap.py`:
URL validation (`is_valid_url`), HTML scraping of images and tables
(`scrape_visual_data`), and deterministic Markdown rendering.

The HTML DOM (BeautifulSoup's parse tree) is embedded as a tree of
elements and text nodes; BeautifulSoup queries (`find_all`, `find`,
`get_text`, attribute lookup, tag equality `==`) are translated into
recursive functions on that tree.  Python string operations are
embedded at the character-list level so that all definitions evaluate
inside the kernel: `str.lower` (ASCII case folding), `str.strip`,
`str.startswith` / `str.endswith`, `str.split`, `str.splitlines`
(modelled as splitting on a newline character), and
`str.replace` for the single-character pattern used by the source.

External library calls (the HTTP client `requests.get`,
`requests.compat.urljoin`, `base64.b64encode`, and the S3 sink) are
parameters of the embedding: fetching the primary document is a
function returning `Except` (an exception propagates), fetching one
image returns `Option` (any exception is caught by the source and the
image dropped).  The S3 upload is outside the normalization core; the
embedding returns the produced Markdown artifact itself.
-/

/-! ### Python string primitives, embedded on character lists -/

/-- Embeds Python `str.lower` (ASCII case folding, as used on URLs). -/
def pyLower (s : String) : String := String.mk (s.data.map Char.toLower)

/-- The whitespace characters recognised by Python `str.strip()`. -/
def isPySpace (c : Char) : Bool :=
  c == ' ' || c == '\t' || c == '\n' || c == '\r' || c == '\x0b' || c == '\x0c'

/-- Embeds Python `str.strip()` with no argument. -/
def pyStrip (s : String) : String :=
  String.mk ((s.data.dropWhile isPySpace).reverse.dropWhile isPySpace).reverse

/-- Embeds Python `str.startswith`. -/
def pyStartsWith (s pre : String) : Bool := pre.data.isPrefixOf s.data

/-- Embeds Python `str.endswith`. -/
def pyEndsWith (s suf : String) : Bool := suf.data.isSuffixOf s.data

/-- Embeds Python `line.split("  ")` (split on each double-space occurrence,
left to right).  The accumulator holds the current field reversed. -/
def splitDS : List Char → List Char → List (List Char)
  | [], acc => [acc.reverse]
  | ' ' :: ' ' :: rest, acc => acc.reverse :: splitDS rest []
  | c :: rest, acc => splitDS rest (c :: acc)

/-- Embeds Python `str.splitlines`, modelled as splitting on `'\n'`. -/
def splitNL : List Char → List Char → List (List Char)
  | [], acc => [acc.reverse]
  | '\n' :: rest, acc => acc.reverse :: splitNL rest []
  | c :: rest, acc => splitNL rest (c :: acc)

/-- Embeds Python `"sep".join(xs)`. -/
def joinSep (sep : String) : List String → String
  | [] => ""
  | [x] => x
  | x :: y :: rest => x ++ sep ++ joinSep sep (y :: rest)

/-- Embeds the source's `cell.replace("|", "\\|")`: the pattern is the single
character `'|'`, so the replacement is a per-character expansion. -/
def sanitizeCell (s : String) : String :=
  String.mk (s.data.flatMap (fun c => if c = '|' then ['\\', '|'] else [c]))

/-- Number of start positions at which `pat` occurs in a character list. -/
def countPat (pat : List Char) : List Char → Nat
  | [] => 0
  | c :: rest => (if pat.isPrefixOf (c :: rest) then 1 else 0) + countPat pat rest

/-- Every `'|'` in the list is immediately preceded by a backslash.  The
first argument is the previous character (sentinel `' '` at the start). -/
def noBarePipeAux : Char → List Char → Bool
  | _, [] => true
  | prev, c :: rest => if c == '|' && prev != '\\' then false else noBarePipeAux c rest

/-- No bare (un-escaped) pipe character occurs in the string. -/
def noBarePipe (s : String) : Bool := noBarePipeAux ' ' s.data

/-- The string `needle` occurs as a contiguous substring of `hay`. -/
def containsSub (needle hay : String) : Prop := ∃ pre post, hay = pre ++ needle ++ post

/-! ### The HTML document model -/

mutual
/-- A node of the BeautifulSoup parse tree: a text node, or an element with a
tag name, an attribute list and children. -/
inductive Html where
  | text : String → Html
  | elem : String → List (String × String) → HtmlList → Html

/-- Children of an element (a mutual inductive so that all recursive
functions are structural and evaluate in the kernel). -/
inductive HtmlList where
  | nil : HtmlList
  | cons : Html → HtmlList → HtmlList
end

mutual
/-- All strict descendants of a node in document (preorder) order; this is
the node sequence BeautifulSoup's `find_all` filters. -/
def descendants : Html → List Html
  | .text _ => []
  | .elem _ _ cs => descList cs

def descList : HtmlList → List Html
  | .nil => []
  | .cons c rest => c :: descendants c ++ descList rest
end

mutual
/-- Embeds BeautifulSoup tag equality `==` (structural: same name, same
attributes, same contents), which the source uses in `rows[0] == row`. -/
def htmlBeq : Html → Html → Bool
  | .text a, .text b => a == b
  | .elem n1 a1 c1, .elem n2 a2 c2 => n1 == n2 && a1 == a2 && htmlListBeq c1 c2
  | _, _ => false

def htmlListBeq : HtmlList → HtmlList → Bool
  | .nil, .nil => true
  | .cons a as, .cons b bs => htmlBeq a b && htmlListBeq as bs
  | _, _ => false
end

mutual
/-- The text segments of a subtree in document order (BeautifulSoup's
`strings` of a tag). -/
def textSegs : Html → List String
  | .text s => [s]
  | .elem _ _ cs => textSegsList cs

def textSegsList : HtmlList → List String
  | .nil => []
  | .cons c rest => textSegs c ++ textSegsList rest
end

mutual
/-- Embeds `soup(["script", "style"]).extract()`: removes every script and
style element (with its whole subtree) from the document. -/
def stripScripts : Html → Html
  | .text s => .text s
  | .elem n a cs => .elem n a (stripScriptsList cs)

def stripScriptsList : HtmlList → HtmlList
  | .nil => .nil
  | .cons (.text s) rest => .cons (.text s) (stripScriptsList rest)
  | .cons (.elem n a cs) rest =>
      if n == "script" || n == "style" then stripScriptsList rest
      else .cons (.elem n a (stripScriptsList cs)) (stripScriptsList rest)
end

/-- Whether a node is an element with the given tag name. -/
def isTag (name : String) : Html → Bool
  | .text _ => false
  | .elem n _ _ => n == name

/-- Embeds `tag.find_all(name)`: all descendant elements with the tag name,
in document order. -/
def find_all (name : String) (h : Html) : List Html :=
  (descendants h).filter (isTag name)

/-- Embeds `tag.find_all([n1, n2])`: descendants matching any listed name. -/
def findAllNames (names : List String) (h : Html) : List Html :=
  (descendants h).filter (fun c => names.any (fun n => isTag n c))

/-- Embeds `tag.get(key)`: attribute lookup, `none` when absent. -/
def getAttr (h : Html) (key : String) : Option String :=
  match h with
  | .text _ => none
  | .elem _ attrs _ => (attrs.find? (fun p => p.1 == key)).map (fun p => p.2)

/-- Embeds `tag.get_text()` (all text segments concatenated). -/
def get_text (h : Html) : String := String.join (textSegs h)

/-- Embeds `tag.get_text(strip=True)` (each segment stripped, concatenated). -/
def getTextStripped (h : Html) : String := String.join ((textSegs h).map pyStrip)

/-! ### URL validation (`is_valid_url`, source lines 41-50) -/

/-- Source line 22: the fixed list of disallowed file extensions. -/
def DISALLOWED_EXTENSIONS : List String :=
  [".pdf", ".xls", ".xlsx", ".doc", ".docx", ".ppt", ".pptx", ".zip", ".rar"]

/-- Embeds `is_valid_url` (source lines 41-50): require an `http://` or
`https://` prefix, then reject when the lowercased URL string ends in a
disallowed extension. -/
def is_valid_url (url : String) : Bool :=
  if !(pyStartsWith url "http://" || pyStartsWith url "https://") then false
  else if DISALLOWED_EXTENSIONS.any (fun ext => pyEndsWith (pyLower url) ext) then false
  else true

/-- Modelled from the spec (not present in the source, which tests the whole
URL string): the path component of a URL, written after the spec's words
"URLs whose path ends in a member of a fixed disallowed-extension set" -
the part after the scheme and authority, up to the query or fragment. -/
def specUrlPath (url : String) : String :=
  let afterScheme :=
    if pyStartsWith url "http://" then url.data.drop 7
    else if pyStartsWith url "https://" then url.data.drop 8
    else url.data
  String.mk ((afterScheme.dropWhile (fun c => !(c == '/'))).takeWhile
    (fun c => !(c == '?' || c == '#')))

/-! ### Table scraping (source lines 89-122) -/

/-- The table intermediate representation built by the source: a header row
and the data rows. -/
structure TableNode where
  headers : List String
  rows : List (List String)
deriving Repr, DecidableEq

/-- Embeds `row.find_all(["td", "th"])`. -/
def cellsOf (row : Html) : List Html := findAllNames ["td", "th"] row

/-- The stripped cell texts of a row. -/
def cellTexts (row : Html) : List String := (cellsOf row).map getTextStripped

/-- Embeds `all(cell.name == "th" for cell in row.find_all(["td", "th"]))`
(true for a row with no cells, as Python `all` of an empty iterable). -/
def allTh (row : Html) : Bool := (cellsOf row).all (fun c => isTag "th" c)

/-- Embeds the per-table loop of `scrape_visual_data` (source lines 90-122):
header from all `th` cells if any exist, else from the first row's cells;
then every row's stripped cell texts, skipping a row exactly when it equals
(`==`) the first row, the header is non-empty, and all its cells are `th`;
rows with no cells are dropped. -/
def scrapeTable (table : Html) : TableNode :=
  let ths := find_all "th" table
  let headerRow :=
    if ths.isEmpty then
      match (find_all "tr" table).head? with
      | some firstRow => if (cellsOf firstRow).isEmpty then [] else cellTexts firstRow
      | none => []
    else ths.map getTextStripped
  let rows := find_all "tr" table
  let tableData :=
    match rows with
    | [] => []
    | r0 :: _ =>
        ((rows.filter (fun r => !(htmlBeq r0 r && !headerRow.isEmpty && allTh r))).map
          cellTexts).filter (fun rd => !rd.isEmpty)
  { headers := headerRow, rows := tableData }

/-- All tables of the document, in document order. -/
def scrapeTables (doc : Html) : List TableNode := (find_all "table" doc).map scrapeTable

/-! ### Image scraping (source lines 59-86) -/

/-- The image intermediate representation built by the source: the base64
data URI and the alt text. -/
structure ImageNode where
  embedded : String
  alt : String
deriving Repr, DecidableEq

/-- Embeds the MIME-format inference (source lines 70-75): default `jpeg`,
`png` when the lowercased URL ends in `.png`, `gif` when it ends in `.gif`. -/
def imgFormat (imgUrl : String) : String :=
  if pyEndsWith (pyLower imgUrl) ".png" then "png"
  else if pyEndsWith (pyLower imgUrl) ".gif" then "gif"
  else "jpeg"

/-- Embeds one iteration of the image loop (source lines 61-86).  `uj` is
`requests.compat.urljoin`, `b64` is `base64.b64encode(...).decode("utf-8")`,
`fetchImg` is `requests.get(...).content` with `none` for a raised-and-caught
exception.  `idx` is the 0-based position among all `img` tags. -/
def emitImage (uj : String → String → String) (b64 : String → String)
    (fetchImg : String → Option String) (base : String) (idx : Nat) (tag : Html) :
    Option ImageNode :=
  match getAttr tag "src" with
  | none => none
  | some src =>
    if src = "" then none
    else
      let imgUrl := uj base src
      match fetchImg imgUrl with
      | none => none
      | some imgData =>
          some { embedded := "data:image/" ++ imgFormat imgUrl ++ ";base64," ++ b64 imgData,
                 alt := (getAttr tag "alt").getD ("Image " ++ toString (idx + 1)) }

/-- The image loop over the tag list, threading the `enumerate` index. -/
def scrapeImagesAux (uj : String → String → String) (b64 : String → String)
    (fetchImg : String → Option String) (base : String) : Nat → List Html → List ImageNode
  | _, [] => []
  | idx, tag :: rest =>
    match emitImage uj b64 fetchImg base idx tag with
    | none => scrapeImagesAux uj b64 fetchImg base (idx + 1) rest
    | some node => node :: scrapeImagesAux uj b64 fetchImg base (idx + 1) rest

/-- Embeds the image-scraping pass: `enumerate(soup.find_all("img"))`. -/
def scrapeImages (uj : String → String → String) (b64 : String → String)
    (fetchImg : String → Option String) (base : String) (doc : Html) : List ImageNode :=
  scrapeImagesAux uj b64 fetchImg base 0 (find_all "img" doc)

/-! ### Text extraction (source lines 124-133) -/

/-- Embeds the visible-text pass: remove script and style elements, take
`get_text()`, split into lines, strip each, split each line on double
spaces, strip the pieces, and join the non-empty pieces with newlines. -/
def extractText (soup : Html) : String :=
  let text := get_text (stripScripts soup)
  let lines := (splitNL text.data []).map (fun l => pyStrip (String.mk l))
  let chunks := lines.flatMap (fun line => (splitDS line.data []).map
    (fun p => pyStrip (String.mk p)))
  joinSep "\n" (chunks.filter (fun c => !(c == "")))

/-! ### Markdown rendering (source lines 136-167) -/

/-- Embeds the row-padding step (source lines 154-155): when the header is
non-empty and the row is shorter, extend the row with empty strings. -/
def padRow (headers row : List String) : List String :=
  if !headers.isEmpty && row.length < headers.length then
    row ++ List.replicate (headers.length - row.length) ""
  else row

/-- The rendered line of one data row (source lines 152-158): pad, escape
pipes in each cell, join with pipe delimiters. -/
def dataLine (headers row : List String) : String :=
  "| " ++ joinSep " | " ((padRow headers row).map sanitizeCell) ++ " |\n"

/-- The separator line under the header (source line 149). -/
def sepLine (headers : List String) : String :=
  "| " ++ joinSep " | " (headers.map (fun _ => "---")) ++ " |\n"

/-- The header row and separator, emitted only when headers exist (source
lines 147-149); header cells are joined without escaping. -/
def headerBlock (headers : List String) : String :=
  if headers.isEmpty then ""
  else "| " ++ joinSep " | " headers ++ " |\n" ++ sepLine headers

/-- One numbered table subsection (source lines 143-160). -/
def renderTable (idx : Nat) (t : TableNode) : String :=
  "### Table " ++ toString idx ++ "\n\n" ++ headerBlock t.headers ++
    String.join (t.rows.map (fun row => dataLine t.headers row)) ++ "\n"

/-- The table subsections in order, numbered from 1
(`enumerate(tables, start=1)`). -/
def renderTablesAux : Nat → List TableNode → String
  | _, [] => ""
  | idx, t :: rest => renderTable idx t ++ renderTablesAux (idx + 1) rest

/-- The body of the Tables section. -/
def renderTables (tables : List TableNode) : String := renderTablesAux 1 tables

/-- One rendered image (source line 167).  The `image.get("alt", ...)`
default in the source is dead code: every stored image dictionary has an
`alt` key, so the alt text is used directly. -/
def renderImage (img : ImageNode) : String :=
  "![" ++ img.alt ++ "](" ++ img.embedded ++ ")\n\n"

/-- Embeds the Markdown assembly (source lines 136-167): title and Content
always; the Tables and Images sections only when non-empty. -/
def renderDoc (text : String) (tables : List TableNode) (images : List ImageNode) : String :=
  let base := "# Extracted Web Content\n\n" ++ "## Content\n\n" ++ text ++ "\n\n"
  let withTables :=
    if tables.isEmpty then base else base ++ "## Tables\n\n" ++ renderTables tables
  if images.isEmpty then withTables
  else withTables ++ "## Images\n\n" ++ String.join (images.map renderImage)

/-! ### The scraping entry point (source lines 53-173) -/

/-- Embeds `scrape_visual_data`: fetch the primary document (`fetchDoc`;
`response.raise_for_status()` propagates a failure to the caller), scrape
images and tables, extract text, and assemble the Markdown artifact.  The
S3 upload is the external sink; the embedding returns the artifact. -/
def scrape_visual_data (uj : String → String → String) (b64 : String → String)
    (fetchDoc : String → Except String Html) (fetchImg : String → Option String)
    (url : String) : Except String String :=
  match fetchDoc url with
  | .error e => .error e
  | .ok soup =>
      let images := scrapeImages uj b64 fetchImg url soup
      let tables := scrapeTables soup
      .ok (renderDoc (extractText soup) tables images)

/-- Embeds the `__main__` flow (source lines 188-200): validate first, and
only scrape when the URL is accepted. -/
def main_flow (uj : String → String → String) (b64 : String → String)
    (fetchDoc : String → Except String Html) (fetchImg : String → Option String)
    (url : String) : Option (Except String String) :=
  if is_valid_url url then some (scrape_visual_data uj b64 fetchDoc fetchImg url) else none

/-! ### Concrete fixtures for witnesses and counterexamples -/

/-- A `th` cell with the given text. -/
def thCell (s : String) : Html := Html.elem "th" [] (.cons (.text s) .nil)

/-- A `td` cell with the given text. -/
def tdCell (s : String) : Html := Html.elem "td" [] (.cons (.text s) .nil)

/-- A table row with one cell. -/
def trRow1 (c : Html) : Html := Html.elem "tr" [] (.cons c .nil)

/-- A table row with two cells. -/
def trRow2 (c d : Html) : Html := Html.elem "tr" [] (.cons c (.cons d .nil))

/-- The spec's scenario table `<table><tr><th>A</th><th>B</th></tr>
<tr><td>1</td></tr></table>`. -/
def scenarioTable : Html :=
  Html.elem "table" [] (.cons (trRow2 (thCell "A") (thCell "B")) (.cons (trRow1 (tdCell "1")) .nil))

/-- A header-by-position table `<table><tr><td>A</td></tr>
<tr><td>1</td></tr></table>` (no `th` anywhere). -/
def fallbackTable : Html :=
  Html.elem "table" [] (.cons (trRow1 (tdCell "A")) (.cons (trRow1 (tdCell "1")) .nil))

/-- A table element with no rows and no cells. -/
def emptyTable : Html := Html.elem "table" [] .nil

/-- An `img` tag with an explicit alt text. -/
def imgTag1 : Html := Html.elem "img" [("src", "http://a/1.png"), ("alt", "first")] .nil

/-- An `img` tag with no alt attribute. -/
def imgTag2 : Html := Html.elem "img" [("src", "http://a/2.webp")] .nil

/-- A document with two images and no tables. -/
def imgDoc : Html := Html.elem "body" [] (.cons imgTag1 (.cons imgTag2 .nil))

/-- A fetcher that always succeeds with fixed bytes. -/
def constFetch : String → Option String := fun _ => some "BYTES"

/-- A fetcher that always fails. -/
def noFetch : String → Option String := fun _ => none

/-- A join function that keeps the (absolute) second argument. -/
def joinKeep : String → String → String := fun _ s => s

/-- A stand-in base64 encoder. -/
def b64id : String → String := fun s => s

/-- A primary-document fetcher that always fails. -/
def docFetchFail : String → Except String Html := fun _ => .error "down"

/-- A primary-document fetcher that returns the two-image document. -/
def docFetchImgDoc : String → Except String Html := fun _ => .ok imgDoc

/-! ### Shared helper lemmas -/

/-- Character data distributes over string append. -/
theorem strData_append (a b : String) : (a ++ b).data = a.data ++ b.data := rfl

/-- Appending the image emitted from one tag: the alt text stored in an
emitted node is the `alt` attribute when present, else the positional
placeholder for the tag's 0-based index `idx`. -/
theorem emitImage_alt (uj : String → String → String) (b64 : String → String)
    (fetchImg : String → Option String) (base : String) (idx : Nat) (tag : Html)
    (node : ImageNode) (h : emitImage uj b64 fetchImg base idx tag = some node) :
    node.alt = (getAttr tag "alt").getD ("Image " ++ toString (idx + 1)) := by
  unfold emitImage at h
  cases hsrc : getAttr tag "src" <;> rw [hsrc] at h <;> dsimp only at h
  · cases h
  · rename_i src
    by_cases he : src = ""
    · rw [if_pos he] at h; cases h
    · rw [if_neg he] at h
      cases hf : fetchImg (uj base src) <;> rw [hf] at h
      · cases h
      · injection h with h
        subst h
        rfl

/-- The image loop equals a `filterMap` over the index-annotated tag list. -/
theorem scrapeImagesAux_eq (uj : String → String → String) (b64 : String → String)
    (fetchImg : String → Option String) (base : String) (idx : Nat) (tags : List Html) :
    scrapeImagesAux uj b64 fetchImg base idx tags
      = (List.enumFrom idx tags).filterMap (fun p => emitImage uj b64 fetchImg base p.1 p.2) := by
  induction tags generalizing idx with
  | nil => rfl
  | cons tag rest ih =>
    show (match emitImage uj b64 fetchImg base idx tag with
      | none => scrapeImagesAux uj b64 fetchImg base (idx + 1) rest
      | some node => node :: scrapeImagesAux uj b64 fetchImg base (idx + 1) rest) = _
    cases h : emitImage uj b64 fetchImg base idx tag <;>
      simp [List.enumFrom, List.filterMap_cons, h, ih]

/-- Membership in `enumFrom` determines the element at the carried index. -/
theorem mem_enumFrom_get {α : Type} (l : List α) :
    ∀ (n i : Nat) (x : α), (i, x) ∈ List.enumFrom n l → n ≤ i ∧ l.get? (i - n) = some x := by
  induction l with
  | nil => intro n i x h; cases h
  | cons y rest ih =>
    intro n i x h
    rcases List.mem_cons.mp h with h1 | h2
    · have hi : i = n := (Prod.ext_iff.mp h1).1
      have hx : x = y := (Prod.ext_iff.mp h1).2
      subst hi
      subst hx
      exact ⟨Nat.le_refl _, by simp⟩
    · obtain ⟨hle, hget⟩ := ih (n + 1) i x h2
      refine ⟨by omega, ?_⟩
      have hi : i - n = (i - (n + 1)) + 1 := by omega
      rw [hi]
      simpa using hget

/-- `filterMap` of a guarded function is a `filter` then `filterMap`. -/
theorem filterMap_guard {α β : Type} (g : α → Option β) (q : α → Bool) (l : List α) :
    l.filterMap (fun a => if q a then none else g a)
      = (l.filter (fun a => !q a)).filterMap g := by
  induction l with
  | nil => rfl
  | cons a rest ih => cases hq : q a <;> simp [List.filterMap_cons, List.filter_cons, hq, ih]

/-! ### C2 -/

/-- C2, counterexample: `is_valid_url` accepts
`http://example.com/file.pdf?download=1`, whose path ends in `.pdf`
(a disallowed extension), because the source tests the suffix of the whole
URL string, not of its path; so "valid iff scheme ok and path extension not
disallowed" is false at this input. -/
theorem c2_counterexample :
    is_valid_url "http://example.com/file.pdf?download=1" = true ∧
    specUrlPath "http://example.com/file.pdf?download=1" = "/file.pdf" ∧
    ".pdf" ∈ DISALLOWED_EXTENSIONS ∧
    ¬(is_valid_url "http://example.com/file.pdf?download=1" = true ↔
        ((pyStartsWith "http://example.com/file.pdf?download=1" "http://" ||
          pyStartsWith "http://example.com/file.pdf?download=1" "https://") = true ∧
         ∀ ext ∈ DISALLOWED_EXTENSIONS,
           pyEndsWith (pyLower (specUrlPath "http://example.com/file.pdf?download=1")) ext
             = false)) := by
  refine ⟨by decide, by decide, by decide, ?_⟩
  intro h
  exact absurd ((h.mp (by decide)).2 ".pdf" (by decide)) (by decide)

/-- C2, amended: `is_valid_url url` is true iff `url` starts with `http://`
or `https://` and the lowercased full URL string does not end in a
disallowed extension; and a rejected URL is never fetched: the outcome of
the main flow on a rejected URL does not depend on any fetcher. -/
theorem c2_amended (url : String) :
    (is_valid_url url = true ↔
      ((pyStartsWith url "http://" || pyStartsWith url "https://") = true ∧
       ∀ ext ∈ DISALLOWED_EXTENSIONS, pyEndsWith (pyLower url) ext = false)) ∧
    (is_valid_url url = false →
      ∀ fd1 fd2 fi1 fi2 uj1 uj2 be1 be2,
        main_flow uj1 be1 fd1 fi1 url = main_flow uj2 be2 fd2 fi2 url) := by
  constructor
  · have hAny : (DISALLOWED_EXTENSIONS.any (fun ext => pyEndsWith (pyLower url) ext) = false)
        ↔ ∀ ext ∈ DISALLOWED_EXTENSIONS, pyEndsWith (pyLower url) ext = false := by
      rw [List.any_eq_false]
      simp
    rw [← hAny]
    unfold is_valid_url
    cases hA : (pyStartsWith url "http://" || pyStartsWith url "https://") <;>
      cases hB : DISALLOWED_EXTENSIONS.any (fun ext => pyEndsWith (pyLower url) ext) <;>
      simp [hA, hB]
  · intro h fd1 fd2 fi1 fi2 uj1 uj2 be1 be2
    simp [main_flow, h]

/-- Witness for C2: the rejected URL `ftp://x` yields the same (absent)
outcome under a working fetcher and a failing one. -/
theorem c2_amended_witness :
    main_flow joinKeep b64id docFetchImgDoc constFetch "ftp://x"
      = main_flow joinKeep b64id docFetchFail noFetch "ftp://x" :=
  (c2_amended "ftp://x").2 (by decide) docFetchImgDoc docFetchFail constFetch noFetch
    joinKeep joinKeep b64id b64id

/-! ### C4 -/

/-- C4: with a non-empty header, every shorter data row is padded with
trailing empty strings to exactly the header length; rows at least as long
as the header are left unmodified (never truncated, excess cells kept); in
all cases the original row is a prefix of the padded row, and the rendered
data line is built from exactly the padded row. -/
theorem c4_padding (headers row : List String) :
    padRow headers row = row ++ List.replicate (headers.length - row.length) "" ∧
    (headers ≠ [] → row.length < headers.length →
      (padRow headers row).length = headers.length) ∧
    (headers.length ≤ row.length → padRow headers row = row) ∧
    dataLine headers row
      = "| " ++ joinSep " | " ((padRow headers row).map sanitizeCell) ++ " |\n" := by
  have hpad : padRow headers row = row ++ List.replicate (headers.length - row.length) "" := by
    by_cases he : headers = []
    · subst he
      simp [padRow]
    · have he' : headers.isEmpty = false := by simpa [List.isEmpty_iff] using he
      by_cases hlt : row.length < headers.length
      · simp [padRow, he', hlt]
      · simp [padRow, he', hlt, Nat.sub_eq_zero_of_le (Nat.le_of_not_lt hlt)]
  refine ⟨hpad, ?_, ?_, rfl⟩
  · intro _ hlt
    rw [hpad]
    simp only [List.length_append, List.length_replicate]
    omega
  · intro hge
    rw [hpad, Nat.sub_eq_zero_of_le hge]
    simp

/-- Witness for C4: a short row under headers of length 2 is padded to
length 2; a longer row under a single header is unmodified. -/
theorem c4_padding_witness :
    (["A", "B"] : List String) ≠ [] ∧ (["1"] : List String).length < 2 ∧
    (padRow ["A", "B"] ["1"]).length = 2 ∧ padRow ["A"] ["1", "2"] = ["1", "2"] :=
  ⟨by decide, by decide, (c4_padding ["A", "B"] ["1"]).2.1 (by decide) (by decide),
   (c4_padding ["A"] ["1", "2"]).2.2.1 (by decide)⟩

/-! ### C8 -/

/-- C8: the inline MIME format is inferred solely from the (resolved) image
URL's extension, case-insensitively: `.png` gives `png`, otherwise `.gif`
gives `gif`, anything else defaults to `jpeg`; and every emitted node's
payload is the data URI built from that format and the fetched bytes, with
no dependence of the format on the bytes. -/
theorem c8_mime (u : String) (uj : String → String → String) (b64 : String → String)
    (fetchImg : String → Option String) (base : String) (idx : Nat) (tag : Html) :
    (pyEndsWith (pyLower u) ".png" = true → imgFormat u = "png") ∧
    (pyEndsWith (pyLower u) ".png" = false → pyEndsWith (pyLower u) ".gif" = true →
      imgFormat u = "gif") ∧
    (pyEndsWith (pyLower u) ".png" = false → pyEndsWith (pyLower u) ".gif" = false →
      imgFormat u = "jpeg") ∧
    (∀ node, emitImage uj b64 fetchImg base idx tag = some node →
      ∃ src imgData, getAttr tag "src" = some src ∧ fetchImg (uj base src) = some imgData ∧
        node.embedded = "data:image/" ++ imgFormat (uj base src) ++ ";base64," ++ b64 imgData) := by
  refine ⟨fun h => by simp [imgFormat, h], fun h1 h2 => by simp [imgFormat, h1, h2],
    fun h1 h2 => by simp [imgFormat, h1, h2], ?_⟩
  intro node h
  unfold emitImage at h
  cases hsrc : getAttr tag "src" <;> rw [hsrc] at h <;> dsimp only at h
  · cases h
  · rename_i src
    by_cases he : src = ""
    · rw [if_pos he] at h; cases h
    · rw [if_neg he] at h
      cases hf : fetchImg (uj base src) <;> rw [hf] at h
      · cases h
      · rename_i imgData
        injection h with h
        subst h
        exact ⟨src, imgData, rfl, hf, rfl⟩

/-- Witness for C8: a `.PNG` URL yields format `png`, a `.webp` URL defaults
to `jpeg`, and the second fixture image's emitted payload is the `jpeg`
data URI for its resolved URL. -/
theorem c8_mime_witness :
    imgFormat "http://a/x.PNG" = "png" ∧
    imgFormat "http://a/2.webp" = "jpeg" ∧
    (∃ src imgData, getAttr imgTag2 "src" = some src ∧
      constFetch (joinKeep "http://a" src) = some imgData ∧
      ({ embedded := "data:image/jpeg;base64,BYTES", alt := "Image 2" } : ImageNode).embedded
        = "data:image/" ++ imgFormat (joinKeep "http://a" src) ++ ";base64," ++ b64id imgData) :=
  ⟨(c8_mime "http://a/x.PNG" joinKeep b64id constFetch "b" 0 imgTag1).1 (by decide),
   (c8_mime "http://a/2.webp" joinKeep b64id constFetch "b" 0 imgTag1).2.2.1 (by decide) (by decide),
   (c8_mime "x" joinKeep b64id constFetch "http://a" 1 imgTag2).2.2.2 _ (by decide)⟩

/-! ### C5 -/

/-- C5: the image list is the `filterMap` of the emission over the `img`
tags annotated with their 0-based document positions; every emitted node
originating from the tag at position `i` carries alt text `"Image (i+1)"`
when the tag has no `alt` attribute, and the attribute value verbatim when
it is present. -/
theorem c5_alt_text (uj : String → String → String) (b64 : String → String)
    (fetchImg : String → Option String) (base : String) (doc : Html) :
    scrapeImages uj b64 fetchImg base doc
      = (List.enum (find_all "img" doc)).filterMap
          (fun p => emitImage uj b64 fetchImg base p.1 p.2) ∧
    (∀ node ∈ scrapeImages uj b64 fetchImg base doc,
      ∃ i tag, (find_all "img" doc).get? i = some tag ∧
        emitImage uj b64 fetchImg base i tag = some node ∧
        (getAttr tag "alt" = none → node.alt = "Image " ++ toString (i + 1)) ∧
        (∀ a, getAttr tag "alt" = some a → node.alt = a)) := by
  have haux := scrapeImagesAux_eq uj b64 fetchImg base 0 (find_all "img" doc)
  constructor
  · exact haux
  · intro node hmem
    rw [scrapeImages, haux] at hmem
    obtain ⟨p, hp, hemit⟩ := List.mem_filterMap.mp hmem
    obtain ⟨i, tag⟩ := p
    obtain ⟨-, hget⟩ := mem_enumFrom_get (find_all "img" doc) 0 i tag hp
    refine ⟨i, tag, by simpa using hget, hemit, ?_, ?_⟩
    · intro halt
      rw [emitImage_alt uj b64 fetchImg base i tag node hemit, halt]
      rfl
    · intro a halt
      rw [emitImage_alt uj b64 fetchImg base i tag node hemit, halt]
      rfl

/-- Witness for C5: in the two-image fixture the second `img` tag has no
`alt` attribute; its emitted node carries the positional alt text
`"Image 2"`. -/
theorem c5_alt_text_witness :
    ∃ i tag, (find_all "img" imgDoc).get? i = some tag ∧
      emitImage joinKeep b64id constFetch "http://a" i tag
        = some { embedded := "data:image/jpeg;base64,BYTES", alt := "Image 2" } ∧
      (getAttr tag "alt" = none →
        ({ embedded := "data:image/jpeg;base64,BYTES", alt := "Image 2" } : ImageNode).alt
          = "Image " ++ toString (i + 1)) ∧
      (∀ a, getAttr tag "alt" = some a →
        ({ embedded := "data:image/jpeg;base64,BYTES", alt := "Image 2" } : ImageNode).alt = a) :=
  (c5_alt_text joinKeep b64id constFetch "http://a" imgDoc).2
    { embedded := "data:image/jpeg;base64,BYTES", alt := "Image 2" } (by decide)

/-! ### C7 -/

/-- The resolved absolute URL of an `img` tag, when it has a usable `src`. -/
def resolvedSrc (uj : String → String → String) (base : String) (tag : Html) : Option String :=
  match getAttr tag "src" with
  | none => none
  | some src => if src = "" then none else some (uj base src)

/-- Blocking the fetch of one URL turns exactly the emissions resolving to
that URL into `none` and leaves all others untouched. -/
theorem emitImage_block (uj : String → String → String) (b64 : String → String)
    (fetchImg : String → Option String) (base u : String) (idx : Nat) (tag : Html) :
    emitImage uj b64 (fun v => if v = u then none else fetchImg v) base idx tag
      = if (resolvedSrc uj base tag == some u) then none
        else emitImage uj b64 fetchImg base idx tag := by
  unfold emitImage resolvedSrc
  cases hsrc : getAttr tag "src"
  · simp
  · rename_i src
    by_cases he : src = ""
    · simp [he]
    · simp only [if_neg he]
      by_cases hu : uj base src = u
      · simp [hu]
      · simp [hu, beq_iff_eq]

/-- C7: a failure fetching the primary document is propagated unchanged to
the caller; a successful primary fetch always yields a rendered artifact
(no exception escapes the image loop), whose tables and text do not depend
on the image fetcher; and blocking the fetch of a single image URL omits
exactly the images resolving to that URL, leaving every other emitted
image (and its numbering) unchanged. -/
theorem c7_error_propagation (uj : String → String → String) (b64 : String → String)
    (fetchDoc : String → Except String Html) (fetchImg : String → Option String)
    (url : String) :
    (∀ e, fetchDoc url = .error e →
      scrape_visual_data uj b64 fetchDoc fetchImg url = .error e) ∧
    (∀ doc, fetchDoc url = .ok doc →
      scrape_visual_data uj b64 fetchDoc fetchImg url
        = .ok (renderDoc (extractText doc) (scrapeTables doc)
            (scrapeImages uj b64 fetchImg url doc))) ∧
    (∀ doc u, scrapeImages uj b64 (fun v => if v = u then none else fetchImg v) url doc
      = ((List.enum (find_all "img" doc)).filter
          (fun p => !(resolvedSrc uj url p.2 == some u))).filterMap
          (fun p => emitImage uj b64 fetchImg url p.1 p.2)) := by
  refine ⟨fun e h => by simp [scrape_visual_data, h],
    fun doc h => by simp [scrape_visual_data, h], ?_⟩
  intro doc u
  rw [scrapeImages, scrapeImagesAux_eq]
  have hpt : ∀ p : Nat × Html,
      emitImage uj b64 (fun v => if v = u then none else fetchImg v) url p.1 p.2
        = if (resolvedSrc uj url p.2 == some u) then none
          else emitImage uj b64 fetchImg url p.1 p.2 :=
    fun p => emitImage_block uj b64 fetchImg url u p.1 p.2
  calc (List.enumFrom 0 (find_all "img" doc)).filterMap
        (fun p => emitImage uj b64 (fun v => if v = u then none else fetchImg v) url p.1 p.2)
      = (List.enumFrom 0 (find_all "img" doc)).filterMap
          (fun p => if (resolvedSrc uj url p.2 == some u) then none
            else emitImage uj b64 fetchImg url p.1 p.2) := by
        exact List.filterMap_congr (fun p _ => hpt p)
    _ = _ := filterMap_guard _ _ _

/-- Witness for C7: the failing primary fetch propagates its error; the
succeeding one yields the rendered artifact of the two-image fixture. -/
theorem c7_error_propagation_witness :
    scrape_visual_data joinKeep b64id docFetchFail constFetch "http://a" = .error "down" ∧
    scrape_visual_data joinKeep b64id docFetchImgDoc constFetch "http://a"
      = .ok (renderDoc (extractText imgDoc) (scrapeTables imgDoc)
          (scrapeImages joinKeep b64id constFetch "http://a" imgDoc)) :=
  ⟨(c7_error_propagation joinKeep b64id docFetchFail constFetch "http://a").1 "down" rfl,
   (c7_error_propagation joinKeep b64id docFetchImgDoc constFetch "http://a").2.1 imgDoc rfl⟩

/-! ### C6 -/

/-- The rendered document decomposes into the always-present title and
Content part followed by the two conditional sections. -/
theorem renderDoc_decomp (text : String) (tables : List TableNode) (images : List ImageNode) :
    renderDoc text tables images
      = ("# Extracted Web Content\n\n" ++ "## Content\n\n" ++ text ++ "\n\n")
        ++ ((if tables.isEmpty then "" else "## Tables\n\n" ++ renderTables tables)
        ++ (if images.isEmpty then ""
            else "## Images\n\n" ++ String.join (images.map renderImage))) := by
  unfold renderDoc
  cases ht : tables.isEmpty <;> cases hi : images.isEmpty <;>
    simp [String.append_assoc, String.append_empty] <;> rfl

/-- C6: with no tables and no images the artifact is exactly the title and
the Content section (no Tables or Images heading is emitted); the Tables
heading appears as soon as one table node exists, and the Images heading as
soon as one image node exists. -/
theorem c6_sections (text : String) (tables : List TableNode) (images : List ImageNode) :
    (tables = [] → images = [] →
      renderDoc text tables images
        = "# Extracted Web Content\n\n## Content\n\n" ++ text ++ "\n\n") ∧
    (tables ≠ [] → containsSub "## Tables\n\n" (renderDoc text tables images)) ∧
    (images ≠ [] → containsSub "## Images\n\n" (renderDoc text tables images)) := by
  refine ⟨?_, ?_, ?_⟩
  · intro ht hi
    subst ht
    subst hi
    rfl
  · intro ht
    have ht' : tables.isEmpty = false := by simpa [List.isEmpty_iff] using ht
    rw [renderDoc_decomp, ht']
    refine ⟨"# Extracted Web Content\n\n" ++ "## Content\n\n" ++ text ++ "\n\n",
      renderTables tables
        ++ (if images.isEmpty then ""
            else "## Images\n\n" ++ String.join (images.map renderImage)), ?_⟩
    simp only [String.append_assoc]
    rfl
  · intro hi
    have hi' : images.isEmpty = false := by simpa [List.isEmpty_iff] using hi
    rw [renderDoc_decomp, hi']
    refine ⟨("# Extracted Web Content\n\n" ++ "## Content\n\n" ++ text ++ "\n\n")
        ++ (if tables.isEmpty then "" else "## Tables\n\n" ++ renderTables tables),
      String.join (images.map renderImage), ?_⟩
    simp only [String.append_assoc]
    rfl

/-- Witness for C6: concrete instances of all three parts. -/
theorem c6_sections_witness :
    renderDoc "hello" [] [] = "# Extracted Web Content\n\n## Content\n\nhello\n\n" ∧
    containsSub "## Tables\n\n" (renderDoc "hello" [{ headers := [], rows := [] }] []) ∧
    containsSub "## Images\n\n"
      (renderDoc "hello" [] [{ embedded := "d", alt := "a" }]) :=
  ⟨(c6_sections "hello" [] []).1 rfl rfl,
   (c6_sections "hello" [{ headers := [], rows := [] }] []).2.1 (by decide),
   (c6_sections "hello" [] [{ embedded := "d", alt := "a" }]).2.2 (by decide)⟩

/-! ### C10 -/

/-- A table at position `i` of the list contributes its numbered rendering,
with surrounding renderings as context. -/
theorem renderTablesAux_get (tables : List TableNode) :
    ∀ (k i : Nat) (t : TableNode), tables.get? i = some t →
      ∃ pre post, renderTablesAux k tables = pre ++ renderTable (k + i) t ++ post := by
  induction tables with
  | nil => intro k i t h; cases h
  | cons x rest ih =>
    intro k i t h
    cases i with
    | zero =>
      have hx : x = t := by simpa using h
      subst hx
      exact ⟨"", renderTablesAux (k + 1) rest, by simp [renderTablesAux]⟩
    | succ n =>
      obtain ⟨pre, post, hp⟩ := ih (k + 1) n t (by simpa using h)
      refine ⟨renderTable k x ++ pre, post, ?_⟩
      have hk : k + (n + 1) = k + 1 + n := by omega
      rw [hk]
      simp [renderTablesAux, hp, String.append_assoc]

/-- An empty table renders as a bare numbered heading: no header line, no
separator line, no data lines. -/
theorem renderTable_empty (n : Nat) :
    renderTable n { headers := [], rows := [] } = "### Table " ++ toString n ++ "\n\n\n" := by
  show "### Table " ++ toString n ++ "\n\n" ++ headerBlock [] ++ String.join [] ++ "\n"
    = "### Table " ++ toString n ++ "\n\n\n"
  rw [show headerBlock [] = "" from rfl]
  simp only [String.join, String.append_empty, String.append_assoc, List.foldl]
  rw [show ("\n\n" : String) ++ "\n" = "\n\n\n" from rfl]

/-- C10: a table element with no rows and no header cells still produces a
table entry with empty headers and empty rows; whenever it occurs in a
document it contributes such an entry, and a document whose table list
holds that entry at position `i` renders a `Tables` heading and the bare
numbered `Table (1+i)` subsection. -/
theorem c10_empty_table (doc : Html) (n i : Nat) (text : String)
    (images : List ImageNode) (tables : List TableNode) :
    scrapeTable emptyTable = { headers := [], rows := [] } ∧
    (emptyTable ∈ find_all "table" doc →
      ({ headers := [], rows := [] } : TableNode) ∈ scrapeTables doc) ∧
    renderTable n { headers := [], rows := [] } = "### Table " ++ toString n ++ "\n\n\n" ∧
    (tables.get? i = some { headers := [], rows := [] } →
      containsSub "## Tables\n\n" (renderDoc text tables images) ∧
      containsSub ("### Table " ++ toString (1 + i) ++ "\n\n\n") (renderDoc text tables images)) := by
  refine ⟨by decide, ?_, renderTable_empty n, ?_⟩
  · intro h
    have := List.mem_map_of_mem scrapeTable h
    rwa [show scrapeTable emptyTable = { headers := [], rows := [] } from by decide] at this
  · intro h
    have hne : tables ≠ [] := by
      intro hx
      rw [hx] at h
      cases h
    have ht' : tables.isEmpty = false := by simpa [List.isEmpty_iff] using hne
    constructor
    · rw [renderDoc_decomp, ht']
      refine ⟨"# Extracted Web Content\n\n" ++ "## Content\n\n" ++ text ++ "\n\n",
        renderTables tables
          ++ (if images.isEmpty then ""
              else "## Images\n\n" ++ String.join (images.map renderImage)), ?_⟩
      simp only [String.append_assoc]
      rfl
    · obtain ⟨pre, post, hp⟩ := renderTablesAux_get tables 1 i _ h
      rw [renderTable_empty (1 + i)] at hp
      rw [renderDoc_decomp, ht', show renderTables tables = renderTablesAux 1 tables from rfl, hp]
      refine ⟨("# Extracted Web Content\n\n" ++ "## Content\n\n" ++ text ++ "\n\n")
          ++ ("## Tables\n\n" ++ pre),
        post ++ (if images.isEmpty then ""
            else "## Images\n\n" ++ String.join (images.map renderImage)), ?_⟩
      simp only [Bool.false_eq_true, if_false, String.append_assoc]

/-- Witness for C10: a document holding exactly the empty table element. -/
theorem c10_empty_table_witness :
    ({ headers := [], rows := [] } : TableNode)
      ∈ scrapeTables (Html.elem "body" [] (.cons emptyTable .nil)) ∧
    containsSub "## Tables\n\n" (renderDoc "t" [{ headers := [], rows := [] }] []) ∧
    containsSub ("### Table " ++ toString (1 + 0) ++ "\n\n\n")
      (renderDoc "t" [{ headers := [], rows := [] }] []) :=
  ⟨(c10_empty_table (Html.elem "body" [] (.cons emptyTable .nil)) 1 0 "t" []
      [{ headers := [], rows := [] }]).2.1
      (List.mem_singleton.mpr rfl),
   ((c10_empty_table (Html.elem "body" [] (.cons emptyTable .nil)) 1 0 "t" []
      [{ headers := [], rows := [] }]).2.2.2 (by decide)).1,
   ((c10_empty_table (Html.elem "body" [] (.cons emptyTable .nil)) 1 0 "t" []
      [{ headers := [], rows := [] }]).2.2.2 (by decide)).2⟩

/-! ### C3 -/

/-- Every pipe produced by the per-cell escaping is preceded by a
backslash, whatever character precedes the scanned region. -/
theorem noBarePipeAux_flat (l : List Char) :
    ∀ prev, noBarePipeAux prev
      (l.flatMap (fun c => if c = '|' then ['\\', '|'] else [c])) = true := by
  induction l with
  | nil => intro prev; rfl
  | cons c rest ih =>
    intro prev
    by_cases hc : c = '|'
    · subst hc
      have h1 : (('\\' : Char) == '|') = false := by decide
      have h2 : (('|' : Char) == '|') = true := by decide
      have h3 : (('\\' : Char) != '\\') = false := by decide
      simp only [List.flatMap_cons, if_pos rfl, List.cons_append, List.nil_append,
        noBarePipeAux, h1, h2, h3, Bool.false_and, Bool.and_false, Bool.false_eq_true, if_false]
      exact ih '|'
    · have h1 : (c == '|') = false := beq_eq_false_iff_ne.mpr hc
      simp only [List.flatMap_cons, if_neg hc, List.cons_append, List.nil_append,
        noBarePipeAux, h1, Bool.false_and, Bool.false_eq_true, if_false]
      exact ih c

/-- All pipes in an escaped cell are backslash-escaped. -/
theorem sanitize_noBarePipe (cell : String) : noBarePipe (sanitizeCell cell) = true :=
  noBarePipeAux_flat cell.data ' '

/-- C3, counterexample: a header cell containing a literal pipe is rendered
verbatim - the output contains no `\|` at all, so the bare pipe inside
`a|b` is not a column delimiter and is not escaped. -/
theorem c3_counterexample :
    renderTable 1 { headers := ["a|b"], rows := [] } = "### Table 1\n\n| a|b |\n| --- |\n\n" ∧
    countPat ['\\', '|'] (renderTable 1 { headers := ["a|b"], rows := [] }).data = 0 ∧
    countPat ['|'] "a|b".data = 1 := by
  refine ⟨by decide, by decide, by decide⟩

/-- C3, amended: pipe escaping applies to data-row cells only.  Every data
line is the delimiter template filled with the escaped padded cells, and an
escaped cell never contains a bare pipe; header cells, by contrast, are
joined into the header line verbatim, without escaping. -/
theorem c3_amended (idx : Nat) (t : TableNode) :
    renderTable idx t = "### Table " ++ toString idx ++ "\n\n" ++ headerBlock t.headers ++
      String.join (t.rows.map (fun row => dataLine t.headers row)) ++ "\n" ∧
    (∀ row, dataLine t.headers row
      = "| " ++ joinSep " | " ((padRow t.headers row).map sanitizeCell) ++ " |\n") ∧
    (∀ cell : String, noBarePipe (sanitizeCell cell) = true) ∧
    (t.headers ≠ [] →
      headerBlock t.headers = "| " ++ joinSep " | " t.headers ++ " |\n" ++ sepLine t.headers) := by
  refine ⟨rfl, fun row => rfl, sanitize_noBarePipe, ?_⟩
  intro h
  have h' : t.headers.isEmpty = false := by simpa [List.isEmpty_iff] using h
  unfold headerBlock
  rw [h']
  rfl

/-- Witness for C3: the non-empty header `["a|b"]` yields the unescaped
header block, while the data cell `x|y` escapes to a pipe-safe string. -/
theorem c3_amended_witness :
    headerBlock ["a|b"] = "| " ++ joinSep " | " ["a|b"] ++ " |\n" ++ sepLine ["a|b"] ∧
    noBarePipe (sanitizeCell "x|y") = true :=
  ⟨(c3_amended 1 { headers := ["a|b"], rows := [] }).2.2.2 (by decide),
   (c3_amended 1 { headers := ["a|b"], rows := [] }).2.2.1 "x|y"⟩

/-! ### C9 -/

/-- A non-dash head contributes no `---` occurrence. -/
theorem countPat_skip (c : Char) (l : List Char) (h : ¬ c = '-') :
    countPat ['-', '-', '-'] (c :: l) = countPat ['-', '-', '-'] l := by
  have hc : (('-' : Char) == c) = false := beq_eq_false_iff_ne.mpr (Ne.symm h)
  simp [countPat, List.isPrefixOf, hc]

/-- A dash triple followed by a non-dash contributes exactly one
occurrence. -/
theorem countPat_dash (l : List Char) (h : l.head? ≠ some '-') :
    countPat ['-', '-', '-'] ('-' :: '-' :: '-' :: l) = 1 + countPat ['-', '-', '-'] l := by
  cases l with
  | nil => decide
  | cons c t =>
    have hc : ¬ c = '-' := by simpa using h
    have hc' : (('-' : Char) == c) = false := beq_eq_false_iff_ne.mpr (Ne.symm hc)
    simp [countPat, List.isPrefixOf, hc']

/-- The joined separator core of `n` `---` cells contains exactly `n`
occurrences before any non-dash-headed tail. -/
theorem countPat_sepCore :
    ∀ (n : Nat) (tail : List Char), tail.head? ≠ some '-' →
      countPat ['-', '-', '-'] ((joinSep " | " (List.replicate n "---")).data ++ tail)
        = n + countPat ['-', '-', '-'] tail := by
  intro n
  induction n with
  | zero =>
    intro tail h
    simp [joinSep]
  | succ m ih =>
    intro tail h
    cases m with
    | zero =>
      exact countPat_dash tail h
    | succ k =>
      have hjs : joinSep " | " (List.replicate (k + 2) "---")
          = "---" ++ " | " ++ joinSep " | " (List.replicate (k + 1) "---") := rfl
      rw [hjs]
      have hdata : (("---" ++ " | "
            ++ joinSep " | " (List.replicate (k + 1) "---")).data ++ tail)
          = '-' :: '-' :: '-' :: ' ' :: '|' :: ' '
            :: ((joinSep " | " (List.replicate (k + 1) "---")).data ++ tail) := by
        simp only [strData_append, List.append_assoc]
        rfl
      rw [hdata, countPat_dash _ (by simp), countPat_skip ' ' _ (by decide),
        countPat_skip '|' _ (by decide), countPat_skip ' ' _ (by decide), ih tail h]
      omega

/-- C9: the separator line under a non-empty header contains exactly one
`---` per header cell, and that line occurs in the rendered table. -/
theorem c9_separator_count (t : TableNode) (idx : Nat) (h : t.headers ≠ []) :
    countPat ['-', '-', '-'] (sepLine t.headers).data = t.headers.length ∧
    containsSub (sepLine t.headers) (renderTable idx t) := by
  constructor
  · unfold sepLine
    rw [List.map_const' t.headers "---"]
    have hdata : (("| " : String) ++ joinSep " | " (List.replicate t.headers.length "---")
          ++ " |\n").data
        = '|' :: ' ' :: ((joinSep " | " (List.replicate t.headers.length "---")).data
          ++ [' ', '|', '\n']) := by
      simp only [strData_append, List.append_assoc]
      rfl
    rw [hdata, countPat_skip '|' _ (by decide), countPat_skip ' ' _ (by decide),
      countPat_sepCore _ _ (by decide)]
    rw [show countPat ['-', '-', '-'] [' ', '|', '\n'] = 0 from rfl]
    omega
  · have h' : t.headers.isEmpty = false := by simpa [List.isEmpty_iff] using h
    refine ⟨"### Table " ++ toString idx ++ "\n\n" ++ ("| " ++ joinSep " | " t.headers ++ " |\n"),
      String.join (t.rows.map (fun row => dataLine t.headers row)) ++ "\n", ?_⟩
    show "### Table " ++ toString idx ++ "\n\n" ++ headerBlock t.headers ++ _ ++ "\n" = _
    unfold headerBlock
    rw [h']
    simp only [Bool.false_eq_true, if_false, String.append_assoc]

/-- Witness for C9: a two-column header yields exactly two `---`
occurrences in its separator line, which occurs in the rendered table. -/
theorem c9_separator_count_witness :
    countPat ['-', '-', '-'] (sepLine ["A", "B"]).data = 2 ∧
    containsSub (sepLine ["A", "B"]) (renderTable 1 { headers := ["A", "B"], rows := [] }) :=
  c9_separator_count { headers := ["A", "B"], rows := [] } 1 (by decide)

/-! ### C1 -/

/-- C1: evaluation at the failing input.  For the header-by-position table
`<table><tr><td>A</td></tr><tr><td>1</td></tr></table>` the extraction
consumes the first row as the header (`["A"]`) but does not skip it - the
skip test additionally demands that every cell of the row be a `th`, which
the fallback row's `td` cells fail - so the consumed row reappears as the
first data row, contradicting the claimed "skipping exactly the row that
was consumed as the header-by-position fallback".  For the spec's `th`
scenario table the extraction and rendering match the claim (header row
appearing exactly once, short row padded in the rendered line). -/
theorem c1_fallback_eval :
    scrapeTable fallbackTable = { headers := ["A"], rows := [["A"], ["1"]] } ∧
    (scrapeTable fallbackTable).rows ≠ [["1"]] ∧
    scrapeTable scenarioTable = { headers := ["A", "B"], rows := [["1"]] } ∧
    renderTable 1 (scrapeTable scenarioTable)
      = "### Table 1\n\n| A | B |\n| --- | --- |\n| 1 |  |\n\n" := by
  refine ⟨by decide, by decide, by decide, by decide⟩
